import Mathlib

/-!
Shallow embedding of `src/crud/MatchResult.py` (Tarun087/Designathon-2).

The repository is a set of CRUD data-access functions over a `MatchResult`
table, plus one orchestration function `get_all_match_results` that invokes
an external matching routine, replaces the stored match rows for a job and
records workflow and notification rows.

The database session is modelled as an explicit state value (`DBState`)
holding one list per table, threaded through every operation.  A query
`.filter(...).first()` becomes `List.find?`, `.all()` becomes `List.filter`,
`.order_by(rank.asc())` becomes a sort by `rank`, `db.delete(obj)` removes
the first row with the primary key of `obj`, and mutating a fetched ORM row
updates the first matching row in place.  Python exceptions are modelled
with `Except`: `HTTPException` and any other exception (`AttributeError`
from attribute access on `None`, or a collaborator raising) are the `PyExc`
type, and each operation wraps its body in the handler the source writes.
External collaborators (`run_agent_matching`, `send_email`) are parameters
of the model, constrained only by their contract.
-/

/-- Job description row; only `id` and `requestor_email` are read by this file. -/
structure JobDescription where
  id : Nat
  requestor_email : String
deriving Repr, DecidableEq

/-- Modelled from the spec: availability enum of a consultant profile
(`model/ConsultantProfile.py` is not under `src/`); only the member
`unavailable` is referenced by the source, every other member behaves alike
under the filter `availability != unavailable`. -/
inductive ConsultantEnum where
  | available
  | unavailable
deriving Repr, DecidableEq

/-- Consultant profile row with the fields the source serializes. -/
structure ConsultantProfile where
  id : Nat
  name : String
  skills : String
  experience : Nat
  location : String
  availability : ConsultantEnum
deriving Repr, DecidableEq

/-- Workflow progress enum referenced by the source. -/
inductive WorkflowProgressEnum where
  | PROCESSING
  | COMPLETED
deriving Repr, DecidableEq

/-- The `steps` mapping written by `get_all_match_results`. -/
structure WorkflowSteps where
  jd_parsed : Bool
  profiles_compared : Bool
deriving Repr, DecidableEq

/-- Workflow status row. -/
structure WorkflowStatus where
  id : Nat
  job_description_id : Nat
  steps : WorkflowSteps
  progress : WorkflowProgressEnum
deriving Repr, DecidableEq

/-- Match result row (`model/MatchResult.py`): one (job, consultant) pairing
with a rank.  `similarity_score` is numeric; it is only stored and echoed,
so it is modelled as `Int`.  `matched_at` is a creation timestamp, possibly
absent. -/
structure MatchResult where
  id : Nat
  job_description_id : Nat
  consultant_id : Nat
  rank : Nat
  similarity_score : Int
  matched_at : Option Nat
deriving Repr, DecidableEq

/-- Notification audit row written at the end of a successful matching run. -/
structure EmailRecord where
  id : Nat
  job_description_id : Nat
  recipient_email : String
  workflow_status_id : Nat
  email_content : String
  status : String
  sent_at : Nat
deriving Repr, DecidableEq

/-- Modelled from the spec: the transport schema of a match result
(`schema/MatchResult.py` is not under `src/`).  Per the data model of the
spec, `id` is assigned on creation by the store, so the payload carries the
remaining fields; `model_validate` of a stored row projects it to this
shape and `model_dump` of a payload yields exactly these fields. -/
structure MatchResultSchema where
  job_description_id : Nat
  consultant_id : Nat
  rank : Nat
  similarity_score : Int
  matched_at : Option Nat
deriving Repr, DecidableEq

/-- The database state: one list per table, an autoincrement counter for
ids assigned on insert, and the current clock used for created timestamps. -/
structure DBState where
  jobDescriptions : List JobDescription
  consultantProfiles : List ConsultantProfile
  matchResults : List MatchResult
  workflowStatuses : List WorkflowStatus
  emailRecords : List EmailRecord
  nextId : Nat
  now : Nat
deriving Repr, DecidableEq

/-- HTTP-style error surfaced to the caller of an operation. -/
structure HTTPError where
  status : Nat
  detail : String
deriving Repr, DecidableEq

/-- Python exceptions relevant to this file: an `HTTPException`, or any
other exception (attribute access on `None`, a collaborator raising). -/
inductive PyExc where
  | http : HTTPError → PyExc
  | other : PyExc
deriving Repr, DecidableEq

/-- The handler pattern shared by most operations:
`except HTTPException as http_exc: raise http_exc` followed by
`except Exception: raise HTTPException(500, msg)`. -/
def handleStd (msg : String) : Except PyExc α → Except HTTPError α
  | .ok v => .ok v
  | .error (.http e) => .error e
  | .error .other => .error ⟨500, msg⟩

/-- The handler of `get_all_match_results`: a bare `except Exception`
converts every exception, `HTTPException` included, into a 500. -/
def handleAll (msg : String) : Except PyExc α → Except HTTPError α
  | .ok v => .ok v
  | .error _ => .error ⟨500, msg⟩

/-- Projection performed by `MatchResultSchema.model_validate` on a stored row. -/
def toSchema (m : MatchResult) : MatchResultSchema :=
  ⟨m.job_description_id, m.consultant_id, m.rank, m.similarity_score, m.matched_at⟩

/-- Overwrite of every schema field of a stored row, as the `setattr` loop of
`update_match_result_by_id` does for each key of `model_dump()`. -/
def applySchema (s : MatchResultSchema) (m : MatchResult) : MatchResult :=
  { m with job_description_id := s.job_description_id,
           consultant_id := s.consultant_id,
           rank := s.rank,
           similarity_score := s.similarity_score,
           matched_at := s.matched_at }

/-- Update the first element satisfying `p` in place (a fetched ORM row that
is mutated and committed keeps its position). -/
def updateFirst (p : α → Bool) (f : α → α) : List α → List α
  | [] => []
  | a :: l => if p a then f a :: l else a :: updateFirst p f l

/-- Remove the first element satisfying `p` (`db.delete(obj)` on a row
fetched with `.first()`). -/
def eraseFirst (p : α → Bool) : List α → List α
  | [] => []
  | a :: l => if p a then l else a :: eraseFirst p l

/-- Comparison by ascending rank, the sort key of `order_by(rank.asc())`. -/
def rankLE (a b : MatchResult) : Prop := a.rank ≤ b.rank

instance : DecidableRel rankLE :=
  fun a b => inferInstanceAs (Decidable (a.rank ≤ b.rank))

instance : IsTotal MatchResult rankLE := ⟨fun a b => Nat.le_total a.rank b.rank⟩

instance : IsTrans MatchResult rankLE := ⟨fun _ _ _ h1 h2 => Nat.le_trans h1 h2⟩

/-- Model of `order_by(MatchResult.rank.asc())`: a sort by ascending rank. -/
def orderByRankAsc (l : List MatchResult) : List MatchResult :=
  List.insertionSort rankLE l

/-- Source: `get_match_result_by_id`.  Fetch by primary key, 404 when
absent; the state is returned unchanged in every branch because the body
performs no insert, update, delete or commit. -/
def get_match_result_by_id (st : DBState) (id : Nat) :
    Except HTTPError MatchResultSchema × DBState :=
  (handleStd "An error occurred while fetching the match result."
    (match st.matchResults.find? (fun m => m.id == id) with
     | none => .error (.http ⟨404, "Match result not found."⟩)
     | some m => .ok (toSchema m)),
   st)

/-- Source: `get_match_results_by_job_description_id`.  All rows of a job in
storage order, 404 when none; read-only. -/
def get_match_results_by_job_description_id (st : DBState) (job_description_id : Nat) :
    Except HTTPError (List MatchResultSchema) × DBState :=
  (handleStd "An error occurred while fetching match results for the job description ID."
    (match st.matchResults.filter (fun m => m.job_description_id == job_description_id) with
     | [] => .error (.http ⟨404, "No match results found for the given job description ID."⟩)
     | l => .ok (l.map toSchema)),
   st)

/-- Source: `update_match_result_by_id`.  Fetch by id (404 when absent),
overwrite every schema field, commit, return the serialized updated row. -/
def update_match_result_by_id (st : DBState) (id : Nat) (req : MatchResultSchema) :
    Except HTTPError MatchResultSchema × DBState :=
  match st.matchResults.find? (fun m => m.id == id) with
  | none =>
      (handleStd "An error occurred while updating the match result."
        (.error (.http ⟨404, "Match result not found."⟩)), st)
  | some m =>
      (handleStd "An error occurred while updating the match result."
        (.ok (toSchema (applySchema req m))),
       { st with matchResults :=
           updateFirst (fun x => x.id == id) (applySchema req) st.matchResults })

/-- Source: `delete_match_result_by_id`.  Fetch by id (404 when absent),
remove that row, commit. -/
def delete_match_result_by_id (st : DBState) (id : Nat) :
    Except HTTPError Unit × DBState :=
  match st.matchResults.find? (fun m => m.id == id) with
  | none =>
      (handleStd "An error occurred while deleting the match result."
        (.error (.http ⟨404, "Match result not found."⟩)), st)
  | some _ =>
      (handleStd "An error occurred while deleting the match result." (.ok ()),
       { st with matchResults := eraseFirst (fun x => x.id == id) st.matchResults })

/-- Source: `add_match_result`.  Insert a row built from the payload; the
store assigns the id. -/
def add_match_result (st : DBState) (req : MatchResultSchema) :
    Except HTTPError MatchResultSchema × DBState :=
  let row : MatchResult :=
    ⟨st.nextId, req.job_description_id, req.consultant_id, req.rank,
      req.similarity_score, req.matched_at⟩
  (.ok (toSchema row),
   { st with matchResults := st.matchResults ++ [row], nextId := st.nextId + 1 })

/-- The rows the generic top-n query produces before the emptiness check:
rows of the job sorted by ascending rank, first `n` taken. -/
def topRows (st : DBState) (job_description_id : Nat) (n : Nat) : List MatchResult :=
  (orderByRankAsc (st.matchResults.filter
    (fun m => m.job_description_id == job_description_id))).take n

/-- Source: `get_top_match_results_by_job_description_id`.  Up to `top_n`
rows ordered by ascending rank, 404 when the query is empty; read-only. -/
def get_top_match_results_by_job_description_id (st : DBState)
    (job_description_id : Nat) (top_n : Nat) :
    Except HTTPError (List MatchResultSchema) × DBState :=
  (handleStd "An error occurred while fetching top match results for the job description ID."
    (match topRows st job_description_id top_n with
     | [] => .error (.http ⟨404, "No match results found for the given job description ID."⟩)
     | l => .ok (l.map toSchema)),
   st)

/-- String value of the availability enum, as `.value` yields in the source. -/
def ConsultantEnum.val : ConsultantEnum → String
  | .available => "available"
  | .unavailable => "unavailable"

/-- Consultant profile as serialized inside `get_top_3_matches`, with the
availability normalized to a string. -/
structure SerializedConsultant where
  id : Nat
  name : String
  skills : String
  experience : Nat
  location : String
  availability : String
deriving Repr, DecidableEq

/-- One entry of the list returned by `get_top_3_matches`. -/
structure Top3Entry where
  profile : Option SerializedConsultant
  similarity_score : Int
  rank : Nat
  ranked_at : Option Nat
deriving Repr, DecidableEq

/-- Serialization of one top-3 match row: the consultant profile is looked
up again and inlined, or `None` when no profile row exists. -/
def serializeTop3 (st : DBState) (m : MatchResult) : Top3Entry :=
  match st.consultantProfiles.find? (fun c => c.id == m.consultant_id) with
  | some c =>
      ⟨some ⟨c.id, c.name, c.skills, c.experience, c.location, c.availability.val⟩,
        m.similarity_score, m.rank, m.matched_at⟩
  | none => ⟨none, m.similarity_score, m.rank, m.matched_at⟩

/-- Source: `get_top_3_matches`.  The first three rows by ascending rank,
each serialized with the full consultant profile inlined; there is no
emptiness check, so an empty query yields an empty list; read-only. -/
def get_top_3_matches (st : DBState) (jd_id : Nat) :
    Except HTTPError (List Top3Entry) × DBState :=
  (handleStd "An error occurred while fetching the match result."
    (.ok ((topRows st jd_id 3).map (serializeTop3 st))),
   st)

/-- One entry of the `all_matches` list returned by the external matching
function, per its contract in the spec. -/
structure AgentMatch where
  profile : ConsultantProfile
  similarity_score : Int
deriving Repr, DecidableEq

/-- The result of the external matching function when it produces one. -/
structure AgentResult where
  message : String
  all_matches : List AgentMatch
deriving Repr, DecidableEq

/-- The external matching function `run_agent_matching(db, jd, profiles)`:
receives the session, the job description fetched by `.first()` (possibly
`None`) and the filtered consultant pool, and returns a result or `None`. -/
def RunAgentMatching : Type :=
  DBState → Option JobDescription → List ConsultantProfile → Option AgentResult

/-- The consultant pool queried at the start of `get_all_match_results`:
profiles whose availability is not `unavailable`. -/
def activeProfiles (st : DBState) : List ConsultantProfile :=
  st.consultantProfiles.filter (fun p => !(p.availability == ConsultantEnum.unavailable))

/-- State after the first commit of `get_all_match_results`: a workflow
status row in PROCESSING state has been inserted for the job. -/
def withNewWorkflow (st : DBState) (jid : Nat) : DBState :=
  { st with
    workflowStatuses := st.workflowStatuses ++
      [⟨st.nextId, jid, ⟨true, false⟩, WorkflowProgressEnum.PROCESSING⟩],
    nextId := st.nextId + 1 }

/-- The fresh `MatchResult` rows inserted by the recompute loop: for the
match at index `idx`, rank `idx + 1`, the consultant id of its profile, and
its similarity score; ids are assigned consecutively by the store and the
creation timestamp is the current clock. -/
def freshRows (baseId : Nat) (now : Nat) (jid : Nat) (ms : List AgentMatch) :
    List MatchResult :=
  ms.enum.map (fun p =>
    ⟨baseId + p.1, jid, p.2.profile.id, p.1 + 1, p.2.similarity_score, some now⟩)

/-- The profile dictionary serialized by `get_all_match_results`: unlike
`get_top_3_matches` it echoes the availability enum raw, without `.value`
normalization. -/
structure SerializedProfile where
  id : Nat
  name : String
  skills : String
  experience : Nat
  location : String
  availability : ConsultantEnum
deriving Repr, DecidableEq

/-- One entry of the list returned by `get_all_match_results`. -/
structure SerializedMatch where
  profile : SerializedProfile
  similarity_score : Int
  rank : Nat
deriving Repr, DecidableEq

/-- The serialized list built by `get_all_match_results` from the matches:
each profile paired with its score and the 1-based position as rank. -/
def serializeMatches (ms : List AgentMatch) : List SerializedMatch :=
  ms.enum.map (fun p =>
    ⟨⟨p.2.profile.id, p.2.profile.name, p.2.profile.skills, p.2.profile.experience,
       p.2.profile.location, p.2.profile.availability⟩,
      p.2.similarity_score, p.1 + 1⟩)

/-- Source: `get_all_match_results`.  Orchestrates a matching run: queries
the job description and the available consultant pool (printing only a
diagnostic when either is missing), inserts a PROCESSING workflow row,
invokes the external matching function, attempts the notification email
inside an inner handler that swallows any exception, marks the first
workflow row of the job COMPLETED, deletes every stored match row of the
job, inserts the freshly ranked rows, records a notification row and
returns the serialized matches.  Its outermost handler is a bare
`except Exception`, so every exception, including the 404 it raises itself
when the matching function returns `None` and the attribute errors hit when
the job description is absent, reaches the caller as a 500. -/
def get_all_match_results (ram : RunAgentMatching) (emailFails : Bool)
    (st : DBState) (jobDescription_id : Nat) :
    Except HTTPError (List SerializedMatch) × DBState :=
  let jd? := st.jobDescriptions.find? (fun j => j.id == jobDescription_id)
  let profiles := activeProfiles st
  let st1 := withNewWorkflow st jobDescription_id
  match ram st1 jd? profiles with
  | none =>
      (handleAll "An error occurred while fetching match results."
        (.error (.http ⟨404, "Workflow status not found."⟩)), st1)
  | some result =>
      let _email : Except Unit Unit :=
        match jd? with
        | none => .error ()
        | some _ => if emailFails then .error () else .ok ()
      match st1.workflowStatuses.find?
          (fun w => w.job_description_id == jobDescription_id) with
      | none =>
          (handleAll "An error occurred while fetching match results."
            (.error .other), st1)
      | some wsRow =>
          let completedWs :=
            updateFirst (fun w => w.job_description_id == jobDescription_id)
              (fun w => { w with progress := WorkflowProgressEnum.COMPLETED })
              st1.workflowStatuses
          let st2 := { st1 with workflowStatuses := completedWs }
          let keptRows :=
            st2.matchResults.filter
              (fun m => !(m.job_description_id == jobDescription_id))
          let st3 := { st2 with matchResults := keptRows }
          let newRows :=
            freshRows st3.nextId st3.now jobDescription_id result.all_matches
          let st4 := { st3 with matchResults := st3.matchResults ++ newRows,
                                nextId := st3.nextId + result.all_matches.length }
          match jd? with
          | none =>
              (handleAll "An error occurred while fetching match results."
                (.error .other), st4)
          | some jd =>
              let auditRow : EmailRecord :=
                ⟨st4.nextId, jobDescription_id, jd.requestor_email, wsRow.id,
                  result.message, "sent", st4.now⟩
              let st5 := { st4 with emailRecords := st4.emailRecords ++ [auditRow],
                                    nextId := st4.nextId + 1 }
              (.ok (serializeMatches result.all_matches), st5)

/-- The final state of a successful run of `get_all_match_results`: the
workflow row marked COMPLETED, the match rows of the job replaced by the
fresh ranked set, and a notification row appended. -/
def getAllSuccessState (st : DBState) (jid : Nat) (jd : JobDescription)
    (result : AgentResult) (wsId : Nat) : DBState :=
  { jobDescriptions := st.jobDescriptions
    consultantProfiles := st.consultantProfiles
    matchResults :=
      st.matchResults.filter (fun m => !(m.job_description_id == jid)) ++
        freshRows (st.nextId + 1) st.now jid result.all_matches
    workflowStatuses :=
      updateFirst (fun w => w.job_description_id == jid)
        (fun w => { w with progress := WorkflowProgressEnum.COMPLETED })
        (st.workflowStatuses ++
          [⟨st.nextId, jid, ⟨true, false⟩, WorkflowProgressEnum.PROCESSING⟩])
    emailRecords := st.emailRecords ++
      [⟨st.nextId + 1 + result.all_matches.length, jid, jd.requestor_email, wsId,
         result.message, "sent", st.now⟩]
    nextId := st.nextId + 1 + result.all_matches.length + 1
    now := st.now }

/-- Concrete job description used to evaluate the model. -/
def jdC : JobDescription := ⟨1, "requestor@example.com"⟩

/-- Concrete available consultant profile. -/
def profC : ConsultantProfile := ⟨7, "Ann", "python", 3, "Pune", .available⟩

/-- Concrete unavailable consultant profile. -/
def profU : ConsultantProfile := ⟨8, "Bob", "java", 1, "Pune", .unavailable⟩

/-- Concrete state: one job, one available consultant, no match rows yet. -/
def stC : DBState := ⟨[jdC], [profC], [], [], [], 10, 99⟩

/-- Concrete state whose consultant pool is entirely unavailable. -/
def stU : DBState := ⟨[jdC], [profU], [], [], [], 10, 99⟩

/-- Concrete state with no job description row at all. -/
def stNoJD : DBState := ⟨[], [profC], [], [], [], 10, 99⟩

/-- Concrete agent result with a single match. -/
def resC : AgentResult := ⟨"2 matches found", [⟨profC, 5⟩]⟩

/-- Matching function that always produces `resC`. -/
def ramSome : RunAgentMatching := fun _ _ _ => some resC

/-- Matching function that always fails to produce a result. -/
def ramNone : RunAgentMatching := fun _ _ _ => none

/-- Concrete stored match row of job 1. -/
def rowC : MatchResult := ⟨3, 1, 7, 1, 5, some 4⟩

/-- Second concrete stored match row of job 1, with a worse rank. -/
def rowC2 : MatchResult := ⟨4, 1, 8, 2, 4, none⟩

/-- Concrete state holding two ranked match rows for job 1. -/
def stRows : DBState := ⟨[jdC], [profC], [rowC, rowC2], [], [], 20, 99⟩

/-- Concrete update payload. -/
def reqC : MatchResultSchema := ⟨2, 9, 5, 1, none⟩

/-- Concrete match row whose consultant has no profile row. -/
def rowOrphan : MatchResult := ⟨5, 2, 99, 1, 7, none⟩

/-- Concrete state with an orphan match row and an empty profile table. -/
def stOrphan : DBState := ⟨[], [], [rowOrphan], [], [], 9, 0⟩

/-! ## Helper lemmas -/

/-- Projecting an updated row back to the schema recovers the payload:
`applySchema` writes every schema field and `toSchema` reads them back. -/
theorem toSchema_applySchema (s : MatchResultSchema) (m : MatchResult) :
    toSchema (applySchema s m) = s := rfl

/-- When the in-place update preserves the predicate, searching the updated
list finds the updated image of what the search found before. -/
theorem find?_updateFirst (p : α → Bool) (f : α → α) (l : List α)
    (hf : ∀ a, p a = true → p (f a) = true) :
    (updateFirst p f l).find? p = (l.find? p).map f := by
  induction l with
  | nil => rfl
  | cons a l ih =>
    by_cases h : p a = true
    · rw [updateFirst, if_pos h, List.find?_cons_of_pos _ (hf a h),
        List.find?_cons_of_pos _ h]
      rfl
    · rw [updateFirst, if_neg h, List.find?_cons_of_neg _ h,
        List.find?_cons_of_neg _ h, ih]

/-- With no duplicate primary keys, removing the row of a key leaves no row
with that key behind. -/
theorem find?_eraseFirst_id (i : Nat) (l : List MatchResult)
    (hnd : (l.map (fun m => m.id)).Nodup) :
    (eraseFirst (fun m => m.id == i) l).find? (fun m => m.id == i) = none := by
  induction l with
  | nil => rfl
  | cons a l ih =>
    rw [List.map_cons, List.nodup_cons] at hnd
    by_cases h : (a.id == i) = true
    · rw [eraseFirst, if_pos h]
      refine List.find?_eq_none.mpr (fun x hx hpx => ?_)
      have hxi : x.id = i := by simpa using hpx
      have hai : a.id = i := by simpa using h
      exact hnd.1 (by
        refine List.mem_map.mpr ⟨x, hx, ?_⟩
        rw [hxi, hai])
    · rw [eraseFirst, if_neg h]
      have hc : (a :: eraseFirst (fun m => m.id == i) l).find?
            (fun m => m.id == i)
          = (eraseFirst (fun m => m.id == i) l).find? (fun m => m.id == i) :=
        List.find?_cons_of_neg _ h
      rw [hc]
      exact ih hnd.2

/-- Appending one row satisfying the predicate guarantees the search over
the extended list succeeds. -/
theorem find?_append_right_singleton (p : α → Bool) (l : List α) (a : α)
    (h : p a = true) : ∃ w, (l ++ [a]).find? p = some w := by
  rw [List.find?_append]
  cases hl : l.find? p with
  | none => exact ⟨a, by rw [Option.none_or, List.find?_cons_of_pos _ h]⟩
  | some w => exact ⟨w, rfl⟩

/-- The positions recorded by `enumFrom`, shifted by one, are consecutive. -/
theorem enumFrom_map_fst_succ (ms : List AgentMatch) : ∀ n : Nat,
    (List.enumFrom n ms).map (fun p => p.1 + 1) = List.range' (n + 1) ms.length := by
  induction ms with
  | nil => intro n; rfl
  | cons a ms ih =>
    intro n
    rw [List.enumFrom, List.map_cons, ih (n + 1), List.length_cons, List.range'_succ]

/-- The ranks of the freshly inserted rows form the contiguous sequence
1..k, in the order of the match list. -/
theorem freshRows_map_rank (baseId now jid : Nat) (ms : List AgentMatch) :
    (freshRows baseId now jid ms).map (fun m => m.rank)
      = List.range' 1 ms.length := by
  unfold freshRows
  rw [List.map_map]
  exact enumFrom_map_fst_succ ms 0

/-- The ranks reported in the serialized list form the contiguous sequence
1..k, in the order of the match list. -/
theorem serializeMatches_map_rank (ms : List AgentMatch) :
    (serializeMatches ms).map (fun s => s.rank) = List.range' 1 ms.length := by
  unfold serializeMatches
  rw [List.map_map]
  exact enumFrom_map_fst_succ ms 0

/-- Every freshly inserted row carries the job id of the recompute run. -/
theorem freshRows_job (baseId now jid : Nat) (ms : List AgentMatch) :
    ∀ m ∈ freshRows baseId now jid ms, m.job_description_id = jid := by
  intro m hm
  obtain ⟨p, _, hp⟩ := List.mem_map.mp hm
  rw [← hp]

/-- Filtering the match rows of the post-recompute state down to the job
yields exactly the fresh rows: the kept old rows all belong to other jobs. -/
theorem successState_filter (st : DBState) (jid : Nat) (jd : JobDescription)
    (result : AgentResult) (wsId : Nat) :
    (getAllSuccessState st jid jd result wsId).matchResults.filter
        (fun m => m.job_description_id == jid)
      = freshRows (st.nextId + 1) st.now jid result.all_matches := by
  unfold getAllSuccessState
  rw [List.filter_append]
  have h1 : (st.matchResults.filter
      (fun m => !(m.job_description_id == jid))).filter
        (fun m => m.job_description_id == jid) = [] := by
    refine List.filter_eq_nil_iff.mpr (fun a ha => ?_)
    have := (List.mem_filter.mp ha).2
    simp only [Bool.not_eq_true'] at this
    simp [this]
  have h2 : (freshRows (st.nextId + 1) st.now jid result.all_matches).filter
      (fun m => m.job_description_id == jid)
        = freshRows (st.nextId + 1) st.now jid result.all_matches := by
    refine List.filter_eq_self.mpr (fun a ha => ?_)
    have := freshRows_job (st.nextId + 1) st.now jid result.all_matches a ha
    simp [this]
  rw [h1, h2, List.nil_append]

/-- Characterization of a successful recompute run: when the job description
is found and the matching function produces a result, the operation returns
the serialized matches and the final state is `getAllSuccessState`, for the
first workflow row of the job. -/
theorem getAll_success (ram : RunAgentMatching) (emailFails : Bool)
    (st : DBState) (jid : Nat) (jd : JobDescription) (result : AgentResult)
    (hjd : st.jobDescriptions.find? (fun j => j.id == jid) = some jd)
    (hram : ram (withNewWorkflow st jid) (some jd) (activeProfiles st)
      = some result) :
    ∃ w, (withNewWorkflow st jid).workflowStatuses.find?
          (fun x => x.job_description_id == jid) = some w ∧
      get_all_match_results ram emailFails st jid
        = (.ok (serializeMatches result.all_matches),
           getAllSuccessState st jid jd result w.id) := by
  obtain ⟨w, hw⟩ := find?_append_right_singleton
    (fun x => x.job_description_id == jid) st.workflowStatuses
    ⟨st.nextId, jid, ⟨true, false⟩, WorkflowProgressEnum.PROCESSING⟩ (by simp)
  have hw' : (withNewWorkflow st jid).workflowStatuses.find?
      (fun x => x.job_description_id == jid) = some w := by
    rw [withNewWorkflow]
    exact hw
  refine ⟨w, hw', ?_⟩
  unfold get_all_match_results
  simp only [hjd, hram, hw']
  unfold getAllSuccessState withNewWorkflow
  rfl

/-! ## Claim theorems -/

/-- C5: updating a stored match result by id with a payload and then
fetching the same id returns a record whose fields equal the payload
exactly; every schema field is overwritten (full replace, not partial
patch). -/
theorem c5_update_then_get (st : DBState) (i : Nat) (req : MatchResultSchema)
    (m : MatchResult)
    (h : st.matchResults.find? (fun x => x.id == i) = some m) :
    (update_match_result_by_id st i req).1 = .ok req ∧
    (get_match_result_by_id (update_match_result_by_id st i req).2 i).1
      = .ok req := by
  have hpres : ∀ a : MatchResult, (a.id == i) = true →
      ((applySchema req a).id == i) = true := fun a ha => ha
  have hfind : (updateFirst (fun x => x.id == i) (applySchema req)
        st.matchResults).find? (fun x => x.id == i)
      = some (applySchema req m) := by
    rw [find?_updateFirst _ _ _ hpres, h]
    rfl
  have hstate : (update_match_result_by_id st i req).2
      = { st with matchResults :=
          updateFirst (fun x => x.id == i) (applySchema req) st.matchResults } := by
    unfold update_match_result_by_id
    rw [h]
  constructor
  · unfold update_match_result_by_id
    rw [h]
    rfl
  · rw [hstate]
    simp only [get_match_result_by_id]
    rw [hfind]
    rfl

/-- Witness for C5 at a concrete state: row id 3 exists, the update payload
is echoed back by the subsequent fetch. -/
theorem c5_update_then_get_witness :
    (stRows.matchResults.find? (fun x => x.id == 3) = some rowC) ∧
    ((update_match_result_by_id stRows 3 reqC).1 = .ok reqC ∧
     (get_match_result_by_id (update_match_result_by_id stRows 3 reqC).2 3).1
       = .ok reqC) :=
  ⟨rfl, c5_update_then_get stRows 3 reqC rowC rfl⟩

/-- C6: deleting a stored match result by id and then fetching the same id
signals the 404 NotFound condition, provided the primary keys in the store
are unique, as the store guarantees. -/
theorem c6_delete_then_get (st : DBState) (i : Nat) (m : MatchResult)
    (hnd : (st.matchResults.map (fun x => x.id)).Nodup)
    (hfind : st.matchResults.find? (fun x => x.id == i) = some m) :
    (delete_match_result_by_id st i).1 = .ok () ∧
    (get_match_result_by_id (delete_match_result_by_id st i).2 i).1
      = .error ⟨404, "Match result not found."⟩ := by
  have hstate : (delete_match_result_by_id st i).2
      = { st with matchResults :=
          eraseFirst (fun x => x.id == i) st.matchResults } := by
    unfold delete_match_result_by_id
    rw [hfind]
  constructor
  · unfold delete_match_result_by_id
    rw [hfind]
    rfl
  · rw [hstate]
    simp only [get_match_result_by_id]
    rw [find?_eraseFirst_id i st.matchResults hnd]
    rfl

/-- Witness for C6 at a concrete state: delete id 3, the fetch then fails
with 404. -/
theorem c6_delete_then_get_witness :
    ((stRows.matchResults.map (fun x => x.id)).Nodup) ∧
    (stRows.matchResults.find? (fun x => x.id == 3) = some rowC) ∧
    ((delete_match_result_by_id stRows 3).1 = .ok () ∧
     (get_match_result_by_id (delete_match_result_by_id stRows 3).2 3).1
       = .error ⟨404, "Match result not found."⟩) :=
  ⟨by decide, rfl, c6_delete_then_get stRows 3 rowC (by decide) rfl⟩

/-- C9: the four read operations return the state they were given, in every
branch: they perform no insert, update, delete or commit. -/
theorem c9_reads_preserve_state (st : DBState) (i jid n : Nat) :
    (get_match_result_by_id st i).2 = st ∧
    (get_match_results_by_job_description_id st jid).2 = st ∧
    (get_top_3_matches st jid).2 = st ∧
    (get_top_match_results_by_job_description_id st jid n).2 = st :=
  ⟨rfl, rfl, rfl, rfl⟩

/-- C2: the claim fails on the code.  When the matching function returns no
result, `get_all_match_results` raises a 404 internally, but its outermost
handler is a bare `except Exception` with no `except HTTPException`
re-raise clause (unlike every other operation), so the 404 is caught and
converted: the caller observes a generic 500 internal error, not 404. -/
theorem c2_no_result_gives_500 :
    (get_all_match_results ramNone false stC 1).1
      = .error ⟨500, "An error occurred while fetching match results."⟩ := rfl

/-- C4 counterexample: on a state with zero match rows for the job, the
generic top-n variant signals 404 as claimed, but `get_top_3_matches` has
no emptiness check and returns an empty list instead of signaling 404. -/
theorem c4_counterexample :
    (get_top_3_matches stC 1).1 = .ok [] ∧
    (get_top_match_results_by_job_description_id stC 1 3).1
      = .error ⟨404, "No match results found for the given job description ID."⟩ :=
  ⟨rfl, rfl⟩

/-- C4 amended: for a job with zero stored match rows, the generic top-n
operation signals 404, while the fixed top-3 operation returns an empty
list without signaling. -/
theorem c4_amended (st : DBState) (jid n : Nat)
    (h : st.matchResults.filter (fun m => m.job_description_id == jid) = []) :
    (get_top_match_results_by_job_description_id st jid n).1
      = .error ⟨404, "No match results found for the given job description ID."⟩ ∧
    (get_top_3_matches st jid).1 = .ok [] := by
  have ht : ∀ k, topRows st jid k = [] := by
    intro k
    unfold topRows orderByRankAsc
    rw [h]
    rw [show List.insertionSort rankLE [] = [] from rfl]
    exact List.take_nil
  constructor
  · unfold get_top_match_results_by_job_description_id
    rw [ht n]
    rfl
  · unfold get_top_3_matches
    rw [ht 3]
    rfl

/-- Witness for the amended C4 at a concrete empty state. -/
theorem c4_amended_witness :
    (stC.matchResults.filter (fun m => m.job_description_id == 1) = []) ∧
    ((get_top_match_results_by_job_description_id stC 1 5).1
      = .error ⟨404, "No match results found for the given job description ID."⟩ ∧
     (get_top_3_matches stC 1).1 = .ok []) :=
  ⟨rfl, c4_amended stC 1 5 rfl⟩

/-- C7 counterexample: with the job description absent but the matching
function still producing a result, the run does not complete cleanly: the
notification step reads `jd.requestor_email` on `None`, and the resulting
exception surfaces as a 500 to the caller. -/
theorem c7_counterexample :
    (get_all_match_results ramSome false stNoJD 1).1
      = .error ⟨500, "An error occurred while fetching match results."⟩ := rfl

/-- C7 amended: no precondition is enforced at entry, and with an empty
consultant pool (job present) the run indeed logs only a diagnostic and
completes without signaling a failure; only the absent-job half of the
claim fails (see the counterexample). -/
theorem c7_amended (ram : RunAgentMatching) (emailFails : Bool)
    (st : DBState) (jid : Nat) (jd : JobDescription) (result : AgentResult)
    (hjd : st.jobDescriptions.find? (fun j => j.id == jid) = some jd)
    (hpool : activeProfiles st = [])
    (hram : ram (withNewWorkflow st jid) (some jd) [] = some result) :
    (get_all_match_results ram emailFails st jid).1
      = .ok (serializeMatches result.all_matches) := by
  have hram2 : ram (withNewWorkflow st jid) (some jd) (activeProfiles st)
      = some result := by
    rw [hpool]
    exact hram
  obtain ⟨w, hw, he⟩ := getAll_success ram emailFails st jid jd result hjd hram2
  rw [he]

/-- Witness for the amended C7: every consultant of `stU` is unavailable,
the pool is empty, yet the run completes and returns the serialized
matches. -/
theorem c7_amended_witness :
    (stU.jobDescriptions.find? (fun j => j.id == 1) = some jdC) ∧
    (activeProfiles stU = []) ∧
    (ramSome (withNewWorkflow stU 1) (some jdC) [] = some resC) ∧
    (get_all_match_results ramSome false stU 1).1
      = .ok (serializeMatches resC.all_matches) :=
  ⟨rfl, rfl, rfl, c7_amended ramSome false stU 1 jdC resC rfl rfl rfl⟩

/-- C1: after a successful recompute in which the matching function returns
a list of k matches, the stored `MatchResult` rows of the job are exactly
the freshly computed rows (every prior row of the job removed), their ranks
form the contiguous sequence 1..k in the order of the match list, and the
returned serialized list pairs each profile with the same 1-based rank. -/
theorem c1_recompute_replaces (ram : RunAgentMatching) (emailFails : Bool)
    (st : DBState) (jid : Nat) (jd : JobDescription) (result : AgentResult)
    (hjd : st.jobDescriptions.find? (fun j => j.id == jid) = some jd)
    (hram : ram (withNewWorkflow st jid) (some jd) (activeProfiles st)
      = some result) :
    (get_all_match_results ram emailFails st jid).1
      = .ok (serializeMatches result.all_matches) ∧
    ((get_all_match_results ram emailFails st jid).2.matchResults.filter
        (fun m => m.job_description_id == jid))
      = freshRows (st.nextId + 1) st.now jid result.all_matches ∧
    (freshRows (st.nextId + 1) st.now jid result.all_matches).map
        (fun m => m.rank)
      = List.range' 1 result.all_matches.length ∧
    (serializeMatches result.all_matches).map (fun s => s.rank)
      = List.range' 1 result.all_matches.length := by
  obtain ⟨w, hw, he⟩ := getAll_success ram emailFails st jid jd result hjd hram
  refine ⟨by rw [he], ?_, freshRows_map_rank _ _ _ _,
    serializeMatches_map_rank _⟩
  rw [he]
  exact successState_filter st jid jd result w.id

/-- Witness for C1 at a concrete state with one job, one available
consultant and one returned match. -/
theorem c1_recompute_replaces_witness :
    (stC.jobDescriptions.find? (fun j => j.id == 1) = some jdC) ∧
    (ramSome (withNewWorkflow stC 1) (some jdC) (activeProfiles stC)
      = some resC) ∧
    ((get_all_match_results ramSome false stC 1).1
        = .ok (serializeMatches resC.all_matches) ∧
     ((get_all_match_results ramSome false stC 1).2.matchResults.filter
         (fun m => m.job_description_id == 1))
       = freshRows (stC.nextId + 1) stC.now 1 resC.all_matches ∧
     (freshRows (stC.nextId + 1) stC.now 1 resC.all_matches).map
         (fun m => m.rank)
       = List.range' 1 resC.all_matches.length ∧
     (serializeMatches resC.all_matches).map (fun s => s.rank)
       = List.range' 1 resC.all_matches.length) :=
  ⟨rfl, rfl, c1_recompute_replaces ramSome false stC 1 jdC resC rfl rfl⟩

/-- C8: an email-send failure during the recompute is swallowed: the run
with a raising email sender is identical to the run with a succeeding one,
and it still returns the serialized list, still marks the first workflow
row of the job COMPLETED and still replaces the match rows of the job. -/
theorem c8_email_failure_swallowed (ram : RunAgentMatching)
    (st : DBState) (jid : Nat) (jd : JobDescription) (result : AgentResult)
    (hjd : st.jobDescriptions.find? (fun j => j.id == jid) = some jd)
    (hram : ram (withNewWorkflow st jid) (some jd) (activeProfiles st)
      = some result) :
    get_all_match_results ram true st jid
      = get_all_match_results ram false st jid ∧
    (get_all_match_results ram true st jid).1
      = .ok (serializeMatches result.all_matches) ∧
    (((get_all_match_results ram true st jid).2.workflowStatuses.find?
        (fun x => x.job_description_id == jid)).map (fun x => x.progress))
      = some WorkflowProgressEnum.COMPLETED ∧
    ((get_all_match_results ram true st jid).2.matchResults.filter
        (fun m => m.job_description_id == jid))
      = freshRows (st.nextId + 1) st.now jid result.all_matches := by
  obtain ⟨w, hw, he⟩ := getAll_success ram true st jid jd result hjd hram
  obtain ⟨w2, hw2, he2⟩ := getAll_success ram false st jid jd result hjd hram
  have hww : w2 = w := Option.some.inj (hw2.symm.trans hw)
  rw [hww] at he2
  have hw3 : (st.workflowStatuses ++
      [(⟨st.nextId, jid, ⟨true, false⟩,
        WorkflowProgressEnum.PROCESSING⟩ : WorkflowStatus)]).find?
        (fun x => x.job_description_id == jid) = some w := hw
  have hpres : ∀ a : WorkflowStatus, (a.job_description_id == jid) = true →
      (({ a with progress := WorkflowProgressEnum.COMPLETED } :
        WorkflowStatus).job_description_id == jid) = true := fun a ha => ha
  refine ⟨by rw [he, he2], by rw [he], ?_, ?_⟩
  · rw [he]
    simp only [getAllSuccessState]
    rw [find?_updateFirst _ _ _ hpres, hw3]
    rfl
  · rw [he]
    exact successState_filter st jid jd result w.id

/-- Witness for C8 at a concrete state: the run with the failing email
sender equals the run with the working one and still succeeds. -/
theorem c8_email_failure_swallowed_witness :
    (stC.jobDescriptions.find? (fun j => j.id == 1) = some jdC) ∧
    (ramSome (withNewWorkflow stC 1) (some jdC) (activeProfiles stC)
      = some resC) ∧
    (get_all_match_results ramSome true stC 1
        = get_all_match_results ramSome false stC 1 ∧
     (get_all_match_results ramSome true stC 1).1
        = .ok (serializeMatches resC.all_matches) ∧
     (((get_all_match_results ramSome true stC 1).2.workflowStatuses.find?
         (fun x => x.job_description_id == 1)).map (fun x => x.progress))
       = some WorkflowProgressEnum.COMPLETED ∧
     ((get_all_match_results ramSome true stC 1).2.matchResults.filter
         (fun m => m.job_description_id == 1))
       = freshRows (stC.nextId + 1) stC.now 1 resC.all_matches) :=
  ⟨rfl, rfl, c8_email_failure_swallowed ramSome stC 1 jdC resC rfl rfl⟩

/-- C10: the fixed top-3 operation returns the serialization of the first
three rows by rank, and every such row whose consultant id has no profile
row is still included in the returned list, with profile `none` and the
score, rank and timestamp taken from the match row. -/
theorem c10_top3_missing_profile (st : DBState) (jid : Nat) :
    (get_top_3_matches st jid).1
      = .ok ((topRows st jid 3).map (serializeTop3 st)) ∧
    (∀ m ∈ topRows st jid 3,
      st.consultantProfiles.find? (fun c => c.id == m.consultant_id) = none →
      (⟨none, m.similarity_score, m.rank, m.matched_at⟩ : Top3Entry)
        ∈ (topRows st jid 3).map (serializeTop3 st)) := by
  refine ⟨rfl, fun m hm hc => ?_⟩
  have hser : serializeTop3 st m
      = ⟨none, m.similarity_score, m.rank, m.matched_at⟩ := by
    unfold serializeTop3
    rw [hc]
  rw [← hser]
  exact List.mem_map_of_mem _ hm

/-- Witness for C10: a match row whose consultant has no profile row is
returned with profile `none`. -/
theorem c10_top3_missing_profile_witness :
    (rowOrphan ∈ topRows stOrphan 2 3) ∧
    (stOrphan.consultantProfiles.find?
        (fun c => c.id == rowOrphan.consultant_id) = none) ∧
    ((⟨none, rowOrphan.similarity_score, rowOrphan.rank,
        rowOrphan.matched_at⟩ : Top3Entry)
      ∈ (topRows stOrphan 2 3).map (serializeTop3 stOrphan)) :=
  ⟨by decide, rfl,
    (c10_top3_missing_profile stOrphan 2).2 rowOrphan (by decide) rfl⟩

/-- C3: whenever the generic top-n operation returns a list, the list has
at most n entries, is sorted by ascending rank, and consists of the first n
rows of the rank-sorted rows of the job; every returned row has rank at
most the rank of every row cut off by the limit, and the sorted rows are a
permutation of all stored rows of the job, so the cut rows are exactly the
excluded ones. -/
theorem c3_topN_sorted_bounded (st : DBState) (jid n : Nat)
    (res : List MatchResultSchema)
    (h : (get_top_match_results_by_job_description_id st jid n).1 = .ok res) :
    res.length ≤ n ∧
    res.Pairwise (fun a b => a.rank ≤ b.rank) ∧
    res = (topRows st jid n).map toSchema ∧
    (∀ r ∈ topRows st jid n,
      ∀ e ∈ (orderByRankAsc (st.matchResults.filter
          (fun m => m.job_description_id == jid))).drop n, r.rank ≤ e.rank) ∧
    List.Perm (orderByRankAsc (st.matchResults.filter
        (fun m => m.job_description_id == jid)))
      (st.matchResults.filter (fun m => m.job_description_id == jid)) := by
  have hsorted : List.Pairwise rankLE (orderByRankAsc (st.matchResults.filter
      (fun m => m.job_description_id == jid))) :=
    List.sorted_insertionSort rankLE _
  have hres : res = (topRows st jid n).map toSchema := by
    cases ht : topRows st jid n with
    | nil =>
      rw [get_top_match_results_by_job_description_id, ht] at h
      exact absurd h (by simp [handleStd])
    | cons a l =>
      rw [get_top_match_results_by_job_description_id, ht] at h
      simp only [handleStd] at h
      exact (Except.ok.inj h).symm
  refine ⟨?_, ?_, hres, ?_, List.perm_insertionSort rankLE _⟩
  · rw [hres, List.length_map]
    exact List.length_take_le n _
  · rw [hres]
    refine List.pairwise_map.mpr ?_
    exact List.Pairwise.sublist (List.take_sublist n _) hsorted
  · intro r hr e he
    exact List.Sorted.rel_of_mem_take_of_mem_drop hsorted hr he

/-- Witness for C3 at a concrete state: two rows for job 1, limit 1 returns
only the best-ranked row. -/
theorem c3_topN_sorted_bounded_witness :
    ((get_top_match_results_by_job_description_id stRows 1 1).1
      = .ok [toSchema rowC]) ∧
    ([toSchema rowC].length ≤ 1 ∧
     List.Pairwise (fun a b => a.rank ≤ b.rank) [toSchema rowC] ∧
     [toSchema rowC] = (topRows stRows 1 1).map toSchema ∧
     (∀ r ∈ topRows stRows 1 1,
       ∀ e ∈ (orderByRankAsc (stRows.matchResults.filter
           (fun m => m.job_description_id == 1))).drop 1, r.rank ≤ e.rank) ∧
     List.Perm (orderByRankAsc (stRows.matchResults.filter
         (fun m => m.job_description_id == 1)))
       (stRows.matchResults.filter (fun m => m.job_description_id == 1))) :=
  ⟨rfl, c3_topN_sorted_bounded stRows 1 1 [toSchema rowC] rfl⟩
